import Mathlib

/-!
Verification of the contact-book manager (`src/main.py`) against its
natural-language specification.

The Python program is shallowly embedded:
* validated fields (`Phone`, `Birthday`, `Name`) become structures whose
  constructors are modelled by `Phone.init` / `Birthday.init` returning
  `Except String _` (the Python constructors raise `ValueError` with the
  given message);
* `datetime` values are modelled by `PyDateTime` (year, month, day, and
  `tod`, the time of day in sub-day units; Python compares datetimes
  field-lexicographically, which `pyLE` reproduces);
* `datetime.strptime(value, "%d.%m.%Y")` is modelled by `strptimeDMY`,
  reproducing CPython's `_strptime` regular expressions for `%d`
  (`3[01]|[12]\d|0[1-9]|[1-9]| [1-9]`), `%m` (`1[0-2]|0[1-9]|[1-9]`) and
  `%Y` (four digits), with the full-consumption check, restricted to
  ASCII digit characters;
* the `AddressBook` (a `UserDict`) becomes a list of key/record pairs in
  insertion order, with Python-dict update semantics (`dictSet` replaces
  in place, keeping the position and the original key object);
* `print` calls inside data methods are modelled as an output log
  (`List String`) returned next to the mutated value;
* functions that can raise return `Except String _`; exceptions that the
  code catches are turned back into return values exactly where the
  `try/except` blocks sit;
* pickle persistence is modelled by `save_data` producing a structural
  `Snapshot` (pickle serializes the object graph faithfully) and
  `load_data` consuming a `FileContent` that is either a missing file,
  a failing read/deserialize (whose error propagates: only
  `FileNotFoundError` is caught), or a stored snapshot.
-/

/-- Inclusive code-point ranges of the characters for which CPython's
`str.isdigit` is true: the Unicode characters with Numeric_Type Decimal
or Digit (Unicode 14.0, as shipped with CPython 3.11) — the ASCII digits,
every script's decimal digits, and digit-valued characters such as
superscripts and subscripts. -/
def pyDigitRanges : List (Nat × Nat) := [
  (48, 57), (178, 179), (185, 185), (1632, 1641), (1776, 1785), (1984,
  1993), (2406, 2415), (2534, 2543), (2662, 2671), (2790, 2799), (2918,
  2927), (3046, 3055), (3174, 3183), (3302, 3311), (3430, 3439), (3558,
  3567), (3664, 3673), (3792, 3801), (3872, 3881), (4160, 4169), (4240,
  4249), (4969, 4977), (6112, 6121), (6160, 6169), (6470, 6479), (6608,
  6618), (6784, 6793), (6800, 6809), (6992, 7001), (7088, 7097), (7232,
  7241), (7248, 7257), (8304, 8304), (8308, 8313), (8320, 8329), (9312,
  9320), (9332, 9340), (9352, 9360), (9450, 9450), (9461, 9469), (9471,
  9471), (10102, 10110), (10112, 10120), (10122, 10130), (42528, 42537),
  (43216, 43225), (43264, 43273), (43472, 43481), (43504, 43513), (43600,
  43609), (44016, 44025), (65296, 65305), (66720, 66729), (68160, 68163),
  (68912, 68921), (69216, 69224), (69714, 69722), (69734, 69743), (69872,
  69881), (69942, 69951), (70096, 70105), (70384, 70393), (70736, 70745),
  (70864, 70873), (71248, 71257), (71360, 71369), (71472, 71481), (71904,
  71913), (72016, 72025), (72784, 72793), (73040, 73049), (73120, 73129),
  (92768, 92777), (92864, 92873), (93008, 93017), (120782, 120831), (123200,
  123209), (123632, 123641), (125264, 125273), (127232, 127242), (130032,
  130041)]

/-- Python `c.isdigit()` for a single character. -/
def pyCharIsdigit (c : Char) : Bool :=
  pyDigitRanges.any fun p => decide (p.1 ≤ c.toNat) && decide (c.toNat ≤ p.2)

/-- Model of Python `str.isdigit`: true iff the string is nonempty and
every character is an isdigit character. -/
def pyIsdigit (s : String) : Bool :=
  !s.data.isEmpty && s.data.all pyCharIsdigit

/-- Source `Phone.validate_phone`: `value.isdigit() and len(value) == 10`. -/
def validate_phone (value : String) : Bool :=
  pyIsdigit value && value.length == 10

/-- Source class `Name`: a plain field wrapping the raw value. -/
structure Name where
  value : String
  deriving DecidableEq

/-- Source class `Phone`: a field whose constructor validated the value. -/
structure Phone where
  value : String
  deriving DecidableEq

/-- Source `Phone.__init__`: succeeds with the raw value exactly when
`validate_phone` holds, otherwise raises `ValueError`. -/
def Phone.init (value : String) : Except String Phone :=
  if validate_phone value then .ok ⟨value⟩
  else .error "Phone number must be exactly 10 digits."

/-- Model of a Python `datetime`: date fields plus `tod`, the time of day
(hour/minute/second/microsecond collapsed into one number, `0` =
midnight). Python compares datetimes field-lexicographically. -/
structure PyDateTime where
  year : Nat
  month : Nat
  day : Nat
  tod : Nat
  deriving DecidableEq

/-- Gregorian leap-year rule, as used by Python's `datetime`. -/
def isLeap (y : Nat) : Bool :=
  y % 4 == 0 && (y % 100 != 0 || y % 400 == 0)

/-- Days in a month, as used by Python's `datetime` validation. -/
def daysInMonth (y m : Nat) : Nat :=
  if m = 2 then (if isLeap y then 29 else 28)
  else if m = 4 ∨ m = 6 ∨ m = 9 ∨ m = 11 then 30
  else 31

/-- Validity check performed by the `datetime` constructor (and hence by
`datetime.replace`): year in `MINYEAR..MAXYEAR`, month in `1..12`, day in
`1..days_in_month`. -/
def validYMD (y m d : Nat) : Bool :=
  decide (1 ≤ y) && decide (y ≤ 9999) && decide (1 ≤ m) && decide (m ≤ 12) &&
    decide (1 ≤ d) && decide (d ≤ daysInMonth y m)

/-- Numeric value of an ASCII digit character. -/
def dVal (c : Char) : Nat := c.toNat - 48

/-- CPython `_strptime` token for `%d`: regex `3[01]|[12]\d|0[1-9]|[1-9]| [1-9]`.
Returns the day value and the unconsumed input. Taking the two-character
alternative greedily is equivalent to the regex with backtracking: every
two-character alternative ends in a digit, so whenever one matches, the
one-character alternative would leave a digit where the following literal
dot is required. -/
def parseDayTok : List Char → Option (Nat × List Char)
  | a :: b :: rest =>
    if a = '3' ∧ (b = '0' ∨ b = '1') then some (30 + dVal b, rest)
    else if (a = '1' ∨ a = '2') ∧ b.isDigit then some (dVal a * 10 + dVal b, rest)
    else if a = '0' ∧ ('1' ≤ b ∧ b ≤ '9') then some (dVal b, rest)
    else if '1' ≤ a ∧ a ≤ '9' then some (dVal a, b :: rest)
    else if a = ' ' ∧ ('1' ≤ b ∧ b ≤ '9') then some (dVal b, rest)
    else none
  | [a] => if '1' ≤ a ∧ a ≤ '9' then some (dVal a, []) else none
  | [] => none

/-- CPython `_strptime` token for `%m`: regex `1[0-2]|0[1-9]|[1-9]`. -/
def parseMonthTok : List Char → Option (Nat × List Char)
  | a :: b :: rest =>
    if a = '1' ∧ (b = '0' ∨ b = '1' ∨ b = '2') then some (10 + dVal b, rest)
    else if a = '0' ∧ ('1' ≤ b ∧ b ≤ '9') then some (dVal b, rest)
    else if '1' ≤ a ∧ a ≤ '9' then some (dVal a, b :: rest)
    else none
  | [a] => if '1' ≤ a ∧ a ≤ '9' then some (dVal a, []) else none
  | [] => none

/-- Literal `.` of the format string. -/
def expectDot : List Char → Option (List Char)
  | '.' :: rest => some rest
  | _ => none

/-- CPython `_strptime` token for `%Y` (exactly four digits) combined with
the trailing check that no unconverted data remains. -/
def parseYear4 : List Char → Option Nat
  | [c1, c2, c3, c4] =>
    if c1.isDigit ∧ c2.isDigit ∧ c3.isDigit ∧ c4.isDigit then
      some (dVal c1 * 1000 + dVal c2 * 100 + dVal c3 * 10 + dVal c4)
    else none
  | _ => none

/-- Model of `datetime.strptime(s, "%d.%m.%Y")` up to (but not including)
the `datetime` construction: returns `(day, month, year)` when the regex
matches the whole string. -/
def strptimeDMY (s : String) : Option (Nat × Nat × Nat) :=
  (parseDayTok s.data).bind fun dp =>
  (expectDot dp.2).bind fun r2 =>
  (parseMonthTok r2).bind fun mp =>
  (expectDot mp.2).bind fun r3 =>
  (parseYear4 r3).map fun y => (dp.1, mp.1, y)

/-- Error message raised by the source `Birthday.__init__`. -/
def invalidDateMsg : String := "Invalid date format. Use DD.MM.YYYY"

/-- Source class `Birthday`: its `value` is the parsed `datetime` (always
at midnight, since `strptime` with a date-only format leaves the time
fields zero). -/
structure Birthday where
  value : PyDateTime
  deriving DecidableEq

/-- Source `Birthday.__init__`: parses via `strptime` and re-raises any
`ValueError` (regex mismatch or calendar validation in the `datetime`
constructor) as the fixed message. -/
def Birthday.init (s : String) : Except String Birthday :=
  match strptimeDMY s with
  | some (d, m, y) =>
    if validYMD y m d then .ok ⟨⟨y, m, d, 0⟩⟩ else .error invalidDateMsg
  | none => .error invalidDateMsg

/-- Source class `Record`: a name, an ordered phone list, an optional
birthday. -/
structure Record where
  name : Name
  phones : List Phone
  birthday : Option Birthday
  deriving DecidableEq

/-- Source `Record.__init__`. -/
def Record.init (name : String) : Record := ⟨⟨name⟩, [], none⟩

/-- Source `Record.add_phone`: appends on success; on `ValueError` prints
the message and returns. The second component is the printed output. -/
def Record.add_phone (r : Record) (phone : String) : Record × List String :=
  match Phone.init phone with
  | .ok p => ({ r with phones := r.phones ++ [p] }, [])
  | .error e => (r, [e])

/-- Source `Record.add_birthday`: sets/overwrites the birthday on success;
on `ValueError` prints the message and returns. -/
def Record.add_birthday (r : Record) (birthday : String) : Record × List String :=
  match Birthday.init birthday with
  | .ok b => ({ r with birthday := some b }, [])
  | .error e => (r, [e])

/-- Source class `AddressBook` (a `UserDict`): its `data` dict is a list of
key/record pairs in insertion order. -/
structure AddressBook where
  data : List (String × Record)
  deriving DecidableEq

/-- Python dict assignment `d[k] = v`: replaces the value in place (keeping
the position and the original key object) when the key is present,
otherwise appends. -/
def dictSet (l : List (String × Record)) (k : String) (v : Record) :
    List (String × Record) :=
  match l with
  | [] => [(k, v)]
  | (k1, v1) :: rest =>
    if k1 == k then (k1, v) :: rest else (k1, v1) :: dictSet rest k v

/-- Source `AddressBook.add_record`: `self.data[record.name.value] = record`. -/
def AddressBook.add_record (book : AddressBook) (record : Record) : AddressBook :=
  ⟨dictSet book.data record.name.value record⟩

/-- Source `AddressBook.find`: `self.data.get(name, None)`. -/
def AddressBook.find (book : AddressBook) (name : String) : Option Record :=
  (book.data.find? fun kv => kv.1 == name).map Prod.snd

/-- Python `datetime` comparison: field-lexicographic. -/
def pyLE (a b : PyDateTime) : Bool :=
  if a.year ≠ b.year then decide (a.year < b.year)
  else if a.month ≠ b.month then decide (a.month < b.month)
  else if a.day ≠ b.day then decide (a.day < b.day)
  else decide (a.tod ≤ b.tod)

/-- Successor day in the calendar (time of day kept). -/
def nextDay (t : PyDateTime) : PyDateTime :=
  if t.day < daysInMonth t.year t.month then ⟨t.year, t.month, t.day + 1, t.tod⟩
  else if t.month < 12 then ⟨t.year, t.month + 1, 1, t.tod⟩
  else ⟨t.year + 1, 1, 1, t.tod⟩

/-- Python `t + timedelta(days=n)`: calendar addition, time of day kept. -/
def addDays (t : PyDateTime) : Nat → PyDateTime
  | 0 => t
  | n + 1 => nextDay (addDays t n)

/-- Python `dt.replace(year=y)`: keeps month, day and time, validates the
resulting date through the `datetime` constructor, raising `ValueError`
(for a Feb 29 birthday in a non-leap target year: "day is out of range
for month"). -/
def pyReplaceYear (dt : PyDateTime) (y : Nat) : Except String PyDateTime :=
  if validYMD y dt.month dt.day then .ok ⟨y, dt.month, dt.day, dt.tod⟩
  else .error "day is out of range for month"

/-- Loop body of `AddressBook.get_upcoming_birthdays` over
`self.data.values()` in insertion order; a `ValueError` from `replace`
aborts the whole call. -/
def upcomingAux (today nextW : PyDateTime) : List Record → Except String (List Record)
  | [] => .ok []
  | r :: rs =>
    match r.birthday with
    | none => upcomingAux today nextW rs
    | some b =>
      match pyReplaceYear b.value today.year with
      | .error e => .error e
      | .ok bty =>
        if pyLE today bty && pyLE bty nextW then
          match upcomingAux today nextW rs with
          | .error e => .error e
          | .ok l => .ok (r :: l)
        else upcomingAux today nextW rs

/-- Source `AddressBook.get_upcoming_birthdays`: `today` stands for the
`datetime.now()` call (an arbitrary instant, with its time of day);
`next_week = today + timedelta(days=days)`. -/
def AddressBook.get_upcoming_birthdays (book : AddressBook) (today : PyDateTime)
    (days : Nat := 7) : Except String (List Record) :=
  upcomingAux today (addDays today days) (book.data.map Prod.snd)

/-- Steps of `add_contact` after the birthday pre-validation: look up or
create the record, apply birthday then phone to the (aliased) record, and
return `(message, final book, printed output)`. -/
def add_contact_core (name phone : String) (birthday : Option String)
    (book : AddressBook) : String × AddressBook × List String :=
  let found := book.find name
  let record0 := match found with | some r => r | none => Record.init name
  let message := match found with | some _ => "Contact updated." | none => "Contact added."
  let book1 := match found with
    | some _ => book
    | none => book.add_record (Record.init name)
  let rb := match birthday with
    | some b => record0.add_birthday b
    | none => (record0, [])
  let rp := if phone ≠ "" then rb.1.add_phone phone else (rb.1, [])
  (message, ⟨dictSet book1.data name rp.1⟩, rb.2 ++ rp.2)

/-- Source `add_contact` (with its `@input_error` wrapper): the result is
`(returned string, final book, printed output)`. A supplied birthday is
pre-validated before any mutation; `rest[0]` and `phone` go through
Python truthiness (the empty string counts as absent). -/
def add_contact (args : List String) (book : AddressBook) :
    String × AddressBook × List String :=
  match args with
  | name :: phone :: rest =>
    let birthday : Option String :=
      match rest.head? with
      | some b => if b = "" then none else some b
      | none => none
    match birthday with
    | some b =>
      match Birthday.init b with
      | .error e => ("Failed to add contact. " ++ e, book, [])
      | .ok _ => add_contact_core name phone (some b) book
    | none => add_contact_core name phone none book
  | _ => ("Not enough arguments. Usage: add [name] [phone]", book, [])

/-- Structural content of a pickled `Record`. -/
structure RecordSnap where
  name : String
  phones : List String
  birthday : Option PyDateTime
  deriving DecidableEq

/-- Structural content of a pickled `AddressBook` (pickle serializes the
object graph faithfully, keys in insertion order). -/
structure Snapshot where
  entries : List (String × RecordSnap)
  deriving DecidableEq

/-- Outcome of opening and reading the persistence file. -/
inductive FileContent where
  | missing : FileContent
  | corrupt (msg : String) : FileContent
  | stored (s : Snapshot) : FileContent
  deriving DecidableEq

/-- Pickling a `Record`. -/
def encodeRecord (r : Record) : RecordSnap :=
  ⟨r.name.value, r.phones.map Phone.value, r.birthday.map Birthday.value⟩

/-- Unpickling a `Record`. -/
def decodeRecord (s : RecordSnap) : Record :=
  ⟨⟨s.name⟩, s.phones.map Phone.mk, s.birthday.map Birthday.mk⟩

/-- Source `save_data`: `pickle.dump(book, f)` — the snapshot written to
the file. -/
def save_data (book : AddressBook) : Snapshot :=
  ⟨book.data.map fun kv => (kv.1, encodeRecord kv.2)⟩

/-- Source `load_data`: returns a fresh empty book when the file is
missing (`FileNotFoundError` is the only exception caught); any other
read/deserialize failure propagates; otherwise unpickles the snapshot. -/
def load_data (f : FileContent) : Except String AddressBook :=
  match f with
  | .missing => .ok ⟨[]⟩
  | .corrupt e => .error e
  | .stored s => .ok ⟨s.entries.map fun kv => (kv.1, decodeRecord kv.2)⟩

/-- Spec-side strict date-order comparison (year, month, day only). -/
def dateLT (a b : PyDateTime) : Bool :=
  decide (a.year < b.year) ||
    (decide (a.year = b.year) && (decide (a.month < b.month) ||
      (decide (a.month = b.month) && decide (a.day < b.day))))

/-- Spec-side date equality (year, month, day only). -/
def sameDate (a b : PyDateTime) : Bool :=
  decide (a.year = b.year) && decide (a.month = b.month) && decide (a.day = b.day)

/-- Spec-side date-order comparison (year, month, day only). -/
def dateLE (a b : PyDateTime) : Bool :=
  dateLT a b || sameDate a b

/-- Spec-side membership predicate for the birthday window, at date
granularity: the birthday projected onto `today`'s year must fall
strictly after `today`'s date (or on it, when `today` is exactly
midnight) and at most on `nextW`'s date. -/
def inWindowDate (today nextW : PyDateTime) (r : Record) : Bool :=
  match r.birthday with
  | none => false
  | some b =>
    (dateLT today ⟨today.year, b.value.month, b.value.day, 0⟩ ||
      (sameDate today ⟨today.year, b.value.month, b.value.day, 0⟩ &&
        (today.tod == 0))) &&
    dateLE ⟨today.year, b.value.month, b.value.day, 0⟩ nextW

/-- Spec-side membership predicate for `get_upcoming_birthdays` at
reference instant `today` with window length `days`. -/
def specIncluded (today : PyDateTime) (days : Nat) (r : Record) : Bool :=
  inWindowDate today (addDays today days) r

/-- Modelled from the spec: the spec's stated boundary format for dates —
exactly two-digit day, two-digit month, four-digit year, separated by
dots (ten characters in total). Used to compare the spec's words against
the parser the code actually uses. -/
def specFormatDDMMYYYY (s : String) : Bool :=
  match s.data with
  | [d1, d2, s1, m1, m2, s2, y1, y2, y3, y4] =>
    d1.isDigit && d2.isDigit && (s1 == '.') && m1.isDigit && m2.isDigit &&
      (s2 == '.') && y1.isDigit && y2.isDigit && y3.isDigit && y4.isDigit
  | _ => false

/-- Digit character with value `n` (for `n ≤ 9`). -/
def digitChar (n : Nat) : Char := Char.ofNat (48 + n)

/-- Two-digit zero-padded rendering. -/
def fmt2 (n : Nat) : List Char := [digitChar (n / 10), digitChar (n % 10)]

/-- Four-digit zero-padded rendering. -/
def fmt4 (n : Nat) : List Char :=
  [digitChar (n / 1000), digitChar (n / 100 % 10), digitChar (n / 10 % 10),
    digitChar (n % 10)]

/-- Canonical `DD.MM.YYYY` rendering of a date. -/
def renderDMY (d m y : Nat) : String :=
  ⟨fmt2 d ++ '.' :: (fmt2 m ++ '.' :: fmt4 y)⟩

/-- Concrete record used by witness statements. -/
def wRec : Record := ⟨⟨"Ann"⟩, [⟨"1234567890"⟩], some ⟨⟨2000, 1, 1, 0⟩⟩⟩

/-- Concrete one-entry book used by witness statements. -/
def wBook : AddressBook := ⟨[("Ann", wRec)]⟩

lemma string_length_mk (l : List Char) : (String.mk l).length = l.length := rfl

lemma string_data_mk (l : List Char) : (String.mk l).data = l := rfl

lemma ascii_pyCharIsdigit (c : Char) (h : c.isDigit = true) : pyCharIsdigit c = true := by
  simp [Char.isDigit] at h
  obtain ⟨h1, h2⟩ := h
  have h3 : 48 ≤ c.toNat := h1
  have h4 : c.toNat ≤ 57 := h2
  simp [pyCharIsdigit, pyDigitRanges]
  exact Or.inl ⟨h3, h4⟩

/-- C4 counterexample: the string of ten SUPERSCRIPT TWO characters has
length 10 and contains no decimal digit at all, yet the `Phone`
constructor accepts it, because Python `str.isdigit` is also true of
non-decimal digit-valued characters — so "any string containing a
character that is not a decimal digit fails with InvalidPhone" is false
of the program. -/
theorem C4_unicode_digit_cex :
    Phone.init "²²²²²²²²²²" = .ok ⟨"²²²²²²²²²²"⟩ ∧
    "²²²²²²²²²²".length = 10 ∧
    "²²²²²²²²²²".data.all Char.isDigit = false := ⟨rfl, rfl, rfl⟩

/-- C4 (amended): `Phone` construction succeeds with value `s` exactly
when `s` has 10 characters all satisfying Python `isdigit` (Unicode
decimal or digit characters); in particular every 10-character ASCII
decimal-digit string succeeds with value `s`. Every other string — wrong
length, or some character that is not a Python digit — fails with the
`InvalidPhone` message. -/
theorem C4_phone_validation_amended (s : String) :
    (s.length = 10 ∧ s.data.all pyCharIsdigit = true → Phone.init s = .ok ⟨s⟩) ∧
    (¬(s.length = 10 ∧ s.data.all pyCharIsdigit = true) →
      Phone.init s = .error "Phone number must be exactly 10 digits.") ∧
    (s.length = 10 ∧ s.data.all Char.isDigit = true → Phone.init s = .ok ⟨s⟩) := by
  obtain ⟨l⟩ := s
  rw [string_length_mk, string_data_mk]
  have hpos : l.length = 10 → l.all pyCharIsdigit = true → Phone.init ⟨l⟩ = .ok ⟨⟨l⟩⟩ := by
    intro h1 h2
    have hne : l.isEmpty = false := by
      cases l with
      | nil => simp at h1
      | cons a t => rfl
    have hcond : validate_phone ⟨l⟩ = true := by
      simp [validate_phone, pyIsdigit, hne, h2, string_data_mk, string_length_mk, h1]
    simp [Phone.init, hcond]
  refine ⟨fun h => hpos h.1 h.2, ?_, ?_⟩
  · intro h
    have hcond : validate_phone ⟨l⟩ = false := by
      by_cases hl : l.length = 10
      · have ha : l.all pyCharIsdigit = false := by
          cases hd : l.all pyCharIsdigit with
          | true => exact absurd ⟨hl, hd⟩ h
          | false => rfl
        simp [validate_phone, pyIsdigit, ha, string_data_mk]
      · simp [validate_phone, pyIsdigit, string_data_mk, string_length_mk, hl]
    simp [Phone.init, hcond]
  · rintro ⟨h1, h2⟩
    refine hpos h1 ?_
    rw [List.all_eq_true] at h2 ⊢
    intro c hc
    exact ascii_pyCharIsdigit c (h2 c hc)

/-- Witness for the amended C4 at a concrete ASCII phone string. -/
theorem C4_phone_validation_amended_witness :
    Phone.init "0123456789" = .ok ⟨"0123456789"⟩ :=
  (C4_phone_validation_amended "0123456789").2.2 (by decide)

/-- C6 (code bug evidence): `Record.add_phone` with an invalid phone
leaves the record unchanged but only prints the validation message (the
second component is the printed output); the caller receives no failure
value. -/
theorem C6_add_phone_swallows_error :
    Record.add_phone (Record.init "Ann") "123" =
      (Record.init "Ann", ["Phone number must be exactly 10 digits."]) := rfl

/-- C7: when a birthday string is supplied and invalid, `add_contact`
returns the failure message with the book unchanged and nothing printed —
no mutation happened. -/
theorem C7_invalid_birthday_aborts (book : AddressBook) (name phone b e : String)
    (hb : b ≠ "") (he : Birthday.init b = .error e) :
    add_contact [name, phone, b] book = ("Failed to add contact. " ++ e, book, []) := by
  simp [add_contact, hb, he]

/-- Witness for C7 at a concrete invalid birthday string. -/
theorem C7_invalid_birthday_aborts_witness :
    add_contact ["Ann", "1234567890", "99.99.9999"] ⟨[]⟩ =
      ("Failed to add contact. " ++ invalidDateMsg, ⟨[]⟩, []) :=
  C7_invalid_birthday_aborts ⟨[]⟩ "Ann" "1234567890" "99.99.9999" invalidDateMsg
    (by decide) rfl

/-- C9: loading with the file missing yields a fresh empty book; any
other read/deserialize failure propagates to the caller unchanged. -/
theorem C9_load_missing_file :
    load_data .missing = .ok ⟨[]⟩ ∧ ∀ e, load_data (.corrupt e) = .error e :=
  ⟨rfl, fun _ => rfl⟩

lemma phone_eta (p : Phone) : Phone.mk p.value = p := rfl

lemma birthday_eta (b : Birthday) : Birthday.mk b.value = b := rfl

lemma decodeRecord_encodeRecord (r : Record) : decodeRecord (encodeRecord r) = r := by
  obtain ⟨⟨n⟩, ph, bd⟩ := r
  simp [encodeRecord, decodeRecord, Function.comp_def, phone_eta, birthday_eta]

lemma entries_roundtrip (l : List (String × Record)) :
    ((l.map fun kv => (kv.1, encodeRecord kv.2)).map fun kv => (kv.1, decodeRecord kv.2)) = l := by
  simp [List.map_map, Function.comp_def, decodeRecord_encodeRecord]

/-- C1: loading the snapshot written by `save_data` yields a book with the
same key set (in the same order) and, for every stored key, a record with
the same name, the same phone values in the same order, and the same
birthday (or absence of one). -/
theorem C1_save_load_roundtrip (D : AddressBook) :
    ∃ E, load_data (.stored (save_data D)) = .ok E ∧
      E.data.map Prod.fst = D.data.map Prod.fst ∧
      ∀ k r, D.find k = some r → ∃ r2, E.find k = some r2 ∧
        r2.name.value = r.name.value ∧
        r2.phones.map Phone.value = r.phones.map Phone.value ∧
        r2.birthday = r.birthday := by
  refine ⟨D, ?_, rfl, ?_⟩
  · obtain ⟨l⟩ := D
    simp only [load_data, save_data]
    rw [entries_roundtrip]
  · intro k r h
    exact ⟨r, h, rfl, rfl, rfl⟩

/-- Witness for C1 at a concrete one-record book. -/
theorem C1_save_load_roundtrip_witness :
    ∃ E, load_data (.stored (save_data wBook)) = .ok E ∧
      E.data.map Prod.fst = wBook.data.map Prod.fst ∧
      ∃ r2, E.find "Ann" = some r2 ∧
        r2.name.value = wRec.name.value ∧
        r2.phones.map Phone.value = wRec.phones.map Phone.value ∧
        r2.birthday = wRec.birthday := by
  obtain ⟨E, h1, h2, h3⟩ := C1_save_load_roundtrip wBook
  exact ⟨E, h1, h2, h3 "Ann" wRec rfl⟩

/-- C5 counterexample: the string `5.6.1990` is not in strict
`DD.MM.YYYY` form (one-digit day and month), yet the `Birthday`
constructor accepts it, because `strptime` with `%d.%m.%Y` also matches
one-digit day and month fields. -/
theorem C5_strict_format_cex :
    Birthday.init "5.6.1990" = .ok ⟨⟨1990, 6, 5, 0⟩⟩ ∧
      specFormatDDMMYYYY "5.6.1990" = false := ⟨rfl, rfl⟩

lemma parseDayTok_fmt2 (d : Nat) (h1 : 1 ≤ d) (h2 : d ≤ 31) (rest : List Char) :
    parseDayTok (fmt2 d ++ rest) = some (d, rest) := by
  interval_cases d <;> rfl

lemma parseMonthTok_fmt2 (m : Nat) (h1 : 1 ≤ m) (h2 : m ≤ 12) (rest : List Char) :
    parseMonthTok (fmt2 m ++ rest) = some (m, rest) := by
  interval_cases m <;> rfl

lemma isDigit_digitChar (n : Nat) (h : n ≤ 9) : (digitChar n).isDigit = true := by
  interval_cases n <;> decide

lemma dVal_digitChar (n : Nat) (h : n ≤ 9) : dVal (digitChar n) = n := by
  interval_cases n <;> decide

lemma parseYear4_fmt4 (y : Nat) (h : y ≤ 9999) : parseYear4 (fmt4 y) = some y := by
  have h1 : y / 1000 ≤ 9 := by omega
  have h2 : y / 100 % 10 ≤ 9 := by omega
  have h3 : y / 10 % 10 ≤ 9 := by omega
  have h4 : y % 10 ≤ 9 := by omega
  simp only [fmt4, parseYear4]
  rw [if_pos ⟨isDigit_digitChar _ h1, isDigit_digitChar _ h2,
    isDigit_digitChar _ h3, isDigit_digitChar _ h4⟩]
  rw [dVal_digitChar _ h1, dVal_digitChar _ h2, dVal_digitChar _ h3, dVal_digitChar _ h4]
  congr 1
  omega

lemma expectDot_cons (r : List Char) : expectDot ('.' :: r) = some r := rfl

lemma strptimeDMY_render (d m y : Nat) (hd1 : 1 ≤ d) (hd2 : d ≤ 31)
    (hm1 : 1 ≤ m) (hm2 : m ≤ 12) (hy : y ≤ 9999) :
    strptimeDMY (renderDMY d m y) = some (d, m, y) := by
  simp only [strptimeDMY, renderDMY, string_data_mk]
  rw [parseDayTok_fmt2 d hd1 hd2]
  simp only [Option.some_bind, expectDot_cons]
  rw [parseMonthTok_fmt2 m hm1 hm2]
  simp only [Option.some_bind, expectDot_cons]
  rw [parseYear4_fmt4 y hy]
  rfl

lemma daysInMonth_le_31 (y m : Nat) : daysInMonth y m ≤ 31 := by
  unfold daysInMonth
  split
  · split <;> omega
  · split <;> omega

/-- C5 (amended): `Birthday` construction accepts every real-date string
rendered in strict `DD.MM.YYYY` form, round-tripping to the same
day/month/year, and rejects Feb 30, month 13, month 00, malformed
separators and day 31 in April with the `InvalidDate` message — but the
accepted language is wider than strict `DD.MM.YYYY`: one-digit day and
month forms such as `5.6.1990` are also accepted (Python `strptime`
leniency). -/
theorem C5_birthday_parse_amended :
    (∀ d m y : Nat, 1 ≤ y → y ≤ 9999 → 1 ≤ m → m ≤ 12 → 1 ≤ d → d ≤ daysInMonth y m →
      Birthday.init (renderDMY d m y) = .ok ⟨⟨y, m, d, 0⟩⟩) ∧
    Birthday.init "30.02.2001" = .error invalidDateMsg ∧
    Birthday.init "01.13.2000" = .error invalidDateMsg ∧
    Birthday.init "01.00.2000" = .error invalidDateMsg ∧
    Birthday.init "01-01-2000" = .error invalidDateMsg ∧
    Birthday.init "31.04.2024" = .error invalidDateMsg ∧
    Birthday.init "5.6.1990" = .ok ⟨⟨1990, 6, 5, 0⟩⟩ := by
  refine ⟨?_, rfl, rfl, rfl, rfl, rfl, rfl⟩
  intro d m y hy1 hy2 hm1 hm2 hd1 hd2
  have hd31 : d ≤ 31 := le_trans hd2 (daysInMonth_le_31 y m)
  have hv : validYMD y m d = true := by
    simp only [validYMD, Bool.and_eq_true, decide_eq_true_eq]
    exact ⟨⟨⟨⟨⟨hy1, hy2⟩, hm1⟩, hm2⟩, hd1⟩, hd2⟩
  unfold Birthday.init
  rw [strptimeDMY_render d m y hd1 hd31 hm1 hm2 hy2]
  simp [hv]

/-- Witness for the amended C5 at a concrete date. -/
theorem C5_birthday_parse_amended_witness :
    Birthday.init (renderDMY 5 6 1990) = .ok ⟨⟨1990, 6, 5, 0⟩⟩ :=
  C5_birthday_parse_amended.1 5 6 1990 (by omega) (by omega) (by omega) (by omega)
    (by omega) (by decide)

lemma pyReplaceYear_error_msg (dt : PyDateTime) (y : Nat) (e : String)
    (h : pyReplaceYear dt y = .error e) : e = "day is out of range for month" := by
  unfold pyReplaceYear at h
  split at h
  · cases h
  · cases h; rfl

lemma upcomingAux_feb29 (today nextW : PyDateTime) (l : List Record)
    (hl : isLeap today.year = false)
    (h : ∃ r ∈ l, ∃ b, r.birthday = some b ∧ b.value.month = 2 ∧ b.value.day = 29) :
    upcomingAux today nextW l = .error "day is out of range for month" := by
  induction l with
  | nil => simp at h
  | cons r rs ih =>
    rcases h with ⟨x, hx, b, hb, hm, hd⟩
    rcases List.mem_cons.mp hx with h1 | h1
    · subst h1
      unfold upcomingAux
      rw [hb]
      have hvf : validYMD today.year b.value.month b.value.day = false := by
        rw [hm, hd]
        simp [validYMD, daysInMonth, hl]
      unfold pyReplaceYear
      simp [hvf]
    · have herr := ih ⟨x, h1, b, hb, hm, hd⟩
      unfold upcomingAux
      cases hbr : r.birthday with
      | none => exact herr
      | some b2 =>
        cases hrep : pyReplaceYear b2.value today.year with
        | error e =>
          simp only [hrep]
          rw [pyReplaceYear_error_msg _ _ _ hrep]
        | ok bty =>
          simp only [hrep]
          by_cases hc : (pyLE today bty && pyLE bty nextW) = true
          · simp [hc, herr]
          · simp only [hc, if_neg]
            simpa using herr

/-- C3: for any book holding a record whose birthday is Feb 29, calling
`get_upcoming_birthdays` at a reference instant in a non-leap year raises
the `ValueError` of the year re-anchoring step (`replace`) instead of
returning a result. -/
theorem C3_feb29_nonleap_error (book : AddressBook) (today : PyDateTime) (days : Nat)
    (hl : isLeap today.year = false)
    (h : ∃ r ∈ book.data.map Prod.snd, ∃ b, r.birthday = some b ∧
      b.value.month = 2 ∧ b.value.day = 29) :
    book.get_upcoming_birthdays today days = .error "day is out of range for month" :=
  upcomingAux_feb29 today (addDays today days) _ hl h

/-- Witness for C3 at a concrete Feb-29 record and reference year 2023. -/
theorem C3_feb29_nonleap_error_witness :
    AddressBook.get_upcoming_birthdays ⟨[("Leo", ⟨⟨"Leo"⟩, [], some ⟨⟨2000, 2, 29, 0⟩⟩⟩)]⟩
      ⟨2023, 1, 1, 300⟩ 7 = .error "day is out of range for month" :=
  C3_feb29_nonleap_error _ _ _ (by decide)
    ⟨⟨⟨"Leo"⟩, [], some ⟨⟨2000, 2, 29, 0⟩⟩⟩, by simp, ⟨⟨2000, 2, 29, 0⟩⟩, rfl, rfl, rfl⟩

lemma pyLE_same_year (a b : PyDateTime) (h0 : b.tod = 0) (hy : a.year = b.year) :
    pyLE a b = (dateLT a b || (sameDate a b && (a.tod == 0))) := by
  obtain ⟨ay, am, ad, au⟩ := a
  obtain ⟨b1, bm, bd, bu⟩ := b
  simp only at h0 hy
  subst h0
  subst hy
  rw [Bool.eq_iff_iff]
  simp only [pyLE, dateLT, sameDate, Bool.or_eq_true, Bool.and_eq_true,
    decide_eq_true_eq, beq_iff_eq]
  split_ifs <;> simp_all

lemma pyLE_midnight (a b : PyDateTime) (h0 : a.tod = 0) :
    pyLE a b = dateLE a b := by
  obtain ⟨ay, am, ad, au⟩ := a
  obtain ⟨b1, bm, bd, bu⟩ := b
  simp only at h0
  subst h0
  rw [Bool.eq_iff_iff]
  simp only [pyLE, dateLE, dateLT, sameDate, Bool.or_eq_true, Bool.and_eq_true,
    decide_eq_true_eq, beq_iff_eq]
  split_ifs <;> simp_all

lemma upcomingAux_filter (today nextW : PyDateTime) (l : List Record)
    (hv : ∀ r ∈ l, (r.birthday.all fun b =>
        (b.value.tod == 0) && validYMD today.year b.value.month b.value.day) = true) :
    upcomingAux today nextW l = .ok (l.filter (inWindowDate today nextW)) := by
  induction l with
  | nil => rfl
  | cons r rs ih =>
    have hr := hv r (List.mem_cons_self r rs)
    have ihs := ih fun x hx => hv x (List.mem_cons_of_mem _ hx)
    unfold upcomingAux
    cases hbr : r.birthday with
    | none =>
      rw [List.filter_cons_of_neg]
      · exact ihs
      · simp [inWindowDate, hbr]
    | some b =>
      rw [hbr] at hr
      simp only [Option.all_some, Bool.and_eq_true, beq_iff_eq] at hr
      obtain ⟨htod, hval⟩ := hr
      have hrep : pyReplaceYear b.value today.year =
          .ok ⟨today.year, b.value.month, b.value.day, b.value.tod⟩ := by
        unfold pyReplaceYear
        rw [if_pos hval]
      dsimp only
      rw [hrep]
      dsimp only
      have hcond : (pyLE today ⟨today.year, b.value.month, b.value.day, b.value.tod⟩ &&
          pyLE ⟨today.year, b.value.month, b.value.day, b.value.tod⟩ nextW) =
          inWindowDate today nextW r := by
        rw [htod]
        simp only [inWindowDate, hbr]
        rw [pyLE_same_year today ⟨today.year, b.value.month, b.value.day, 0⟩ rfl rfl,
          pyLE_midnight ⟨today.year, b.value.month, b.value.day, 0⟩ nextW rfl]
      rw [hcond]
      by_cases hw : inWindowDate today nextW r = true
      · rw [if_pos hw, ihs, List.filter_cons_of_pos hw]
      · rw [if_neg hw, List.filter_cons_of_neg]
        · exact ihs
        · simpa using hw

/-- C2 counterexample: at reference instant 2024-06-01 with a nonzero
time of day, a record whose birthday projects onto exactly the reference
date (June 1) is NOT returned — the code compares the full `now` datetime
against the projected midnight — although the claim requires it to be
included for every reference date. -/
theorem C2_reference_date_excluded_cex :
    AddressBook.get_upcoming_birthdays ⟨[("Ann", ⟨⟨"Ann"⟩, [], some ⟨⟨1990, 6, 1, 0⟩⟩⟩)]⟩
      ⟨2024, 6, 1, 1⟩ 7 = .ok [] ∧
    sameDate ⟨2024, 6, 1, 1⟩ ⟨2024, 6, 1, 0⟩ = true ∧
    pyReplaceYear ⟨1990, 6, 1, 0⟩ 2024 = .ok ⟨2024, 6, 1, 0⟩ := ⟨rfl, rfl, rfl⟩

/-- C2 (amended): provided every stored birthday is a midnight datetime
(as `strptime` guarantees) and projects onto a valid date of the
reference year, `get_upcoming_birthdays` returns, in Directory insertion
order, exactly the records whose projected birthday lies in the window —
with the lower bound: strictly after the reference date, or equal to it
only when the reference instant is exactly midnight; the upper bound
(reference date + days) is inclusive. -/
theorem C2_upcoming_window_amended (book : AddressBook) (today : PyDateTime) (days : Nat)
    (hv : ∀ r ∈ book.data.map Prod.snd, (r.birthday.all fun b =>
        (b.value.tod == 0) && validYMD today.year b.value.month b.value.day) = true) :
    book.get_upcoming_birthdays today days =
      .ok ((book.data.map Prod.snd).filter (specIncluded today days)) :=
  upcomingAux_filter today (addDays today days) _ hv

/-- Witness for the amended C2: the spec's own example (birthday 05.06,
reference date 2024-06-01 at midnight, window 7 days) is returned. -/
theorem C2_upcoming_window_amended_witness :
    AddressBook.get_upcoming_birthdays ⟨[("Ann", ⟨⟨"Ann"⟩, [], some ⟨⟨1990, 6, 5, 0⟩⟩⟩)]⟩
      ⟨2024, 6, 1, 0⟩ 7 =
      .ok (([(⟨⟨"Ann"⟩, [], some ⟨⟨1990, 6, 5, 0⟩⟩⟩ : Record)]).filter
        (specIncluded ⟨2024, 6, 1, 0⟩ 7)) :=
  C2_upcoming_window_amended ⟨[("Ann", ⟨⟨"Ann"⟩, [], some ⟨⟨1990, 6, 5, 0⟩⟩⟩)]⟩
    ⟨2024, 6, 1, 0⟩ 7 (by decide)

lemma find_dictSet (l : List (String × Record)) (k : String) (v : Record) :
    AddressBook.find ⟨dictSet l k v⟩ k = some v := by
  induction l with
  | nil => simp [AddressBook.find, dictSet]
  | cons kv rest ih =>
    obtain ⟨k1, v1⟩ := kv
    by_cases h : k1 = k
    · subst h
      simp [AddressBook.find, dictSet]
    · have hb : (k1 == k) = false := by simp [h]
      simp only [AddressBook.find, dictSet, hb] at ih ⊢
      simp only [Bool.false_eq_true, if_false, List.find?]
      rw [hb]
      exact ih

lemma add_contact_with_valid_bday (name phone b : String) (x : Birthday)
    (book : AddressBook) (hb : b ≠ "") (hbd : Birthday.init b = .ok x) :
    add_contact [name, phone, b] book = add_contact_core name phone (some b) book := by
  simp [add_contact, hb, hbd]

lemma add_contact_no_bday (name phone : String) (book : AddressBook) :
    add_contact [name, phone] book = add_contact_core name phone none book := by
  simp [add_contact]

lemma add_contact_core_message (name phone : String) (birthday : Option String)
    (book : AddressBook) :
    (add_contact_core name phone birthday book).1 =
      (if (book.find name).isSome then "Contact updated." else "Contact added.") := by
  unfold add_contact_core
  cases book.find name <;> simp

/-- C8: when the supplied birthday is valid but the supplied phone fails
validation, the name/birthday mutations stand: the book afterwards holds a
record under the given name whose birthday is the new one and whose phone
list is whatever it was before the call (the rejected phone was not
added). -/
theorem C8_phone_failure_keeps_mutations (book : AddressBook) (name phone b : String)
    (bd : Birthday) (ep : String) (hb : b ≠ "") (hbd : Birthday.init b = .ok bd)
    (hp : Phone.init phone = .error ep) (hpne : phone ≠ "") :
    ∃ r, (add_contact [name, phone, b] book).2.1.find name = some r ∧
      r.birthday = some bd ∧
      r.phones = (match book.find name with | some r0 => r0.phones | none => []) := by
  rw [add_contact_with_valid_bday name phone b bd book hb hbd]
  unfold add_contact_core
  cases hf : book.find name with
  | some r0 =>
    refine ⟨{ r0 with birthday := some bd }, ?_, rfl, by simp⟩
    simp only [Record.add_birthday, hbd, Record.add_phone, hp, ne_eq, hpne,
      not_false_eq_true, if_true]
    exact find_dictSet _ _ _
  | none =>
    refine ⟨{ Record.init name with birthday := some bd }, ?_, rfl, by simp [Record.init]⟩
    simp only [Record.add_birthday, hbd, Record.add_phone, hp, ne_eq, hpne,
      not_false_eq_true, if_true]
    exact find_dictSet _ _ _

/-- Witness for C8 on an initially empty book. -/
theorem C8_phone_failure_keeps_mutations_witness :
    ∃ r, (add_contact ["Ann", "123", "01.01.2000"] ⟨[]⟩).2.1.find "Ann" = some r ∧
      r.birthday = some ⟨⟨2000, 1, 1, 0⟩⟩ ∧
      r.phones = (match (⟨[]⟩ : AddressBook).find "Ann" with
        | some r0 => r0.phones
        | none => []) :=
  C8_phone_failure_keeps_mutations ⟨[]⟩ "Ann" "123" "01.01.2000" ⟨⟨2000, 1, 1, 0⟩⟩
    "Phone number must be exactly 10 digits." (by decide) rfl rfl (by decide)

/-- C10: with no birthday or a valid one, and a phone that fails
validation, `add_contact` still returns the bare success label (added or
updated according to whether the name was new); the returned string
carries no trace of the phone rejection (which went to the print log
only). -/
theorem C10_message_hides_phone_failure (book : AddressBook) (name phone : String)
    (bday : Option String) (ep : String) (hp : Phone.init phone = .error ep)
    (hpne : phone ≠ "")
    (hbd : bday = none ∨ ∃ b x, bday = some b ∧ b ≠ "" ∧ Birthday.init b = .ok x) :
    (add_contact (name :: phone :: bday.toList) book).1 =
      (if (book.find name).isSome then "Contact updated." else "Contact added.") := by
  rcases hbd with rfl | ⟨b, x, rfl, hb, hx⟩
  · rw [show (name :: phone :: Option.toList (α := String) none) = [name, phone] from rfl]
    rw [add_contact_no_bday]
    exact add_contact_core_message name phone none book
  · rw [show (name :: phone :: Option.toList (some b)) = [name, phone, b] from rfl]
    rw [add_contact_with_valid_bday name phone b x book hb hx]
    exact add_contact_core_message name phone (some b) book

/-- Witness for C10 on an initially empty book. -/
theorem C10_message_hides_phone_failure_witness :
    (add_contact ["Ann", "123"] ⟨[]⟩).1 =
      (if ((⟨[]⟩ : AddressBook).find "Ann").isSome then "Contact updated."
        else "Contact added.") :=
  C10_message_hides_phone_failure ⟨[]⟩ "Ann" "123" none
    "Phone number must be exactly 10 digits." rfl (by decide) (Or.inl rfl)
